import Mathlib

/-!
Eureka service discovery adapter.

A shallow embedding of `pilot/pkg/serviceregistry/eureka/servicediscovery.go`.

Conventions of the embedding:

* a Go pointer result (`*model.Service`, `*model.ServiceAttributes`) is an `Option`,
  with `none` for `nil`;
* a Go slice is a `List`, the `nil` slice being `[]`;
* a Go `(result, error)` return is a pair whose second component is `Option error`,
  with `none` for the `nil` error;
* a Go map is an association list read through `List.lookup`; a `for ... range`
  loop that appends to `out` is a left fold that appends to `out`;
* logging (`log.Warnf`) has no effect on the returned values and is left out.
-/

set_option linter.dupNamespace false

namespace Eureka

/-! ## Data model -/

/-- Go's `error`, identified by the message it carries. -/
structure error where
  msg : String
  deriving DecidableEq, Repr

/-- The type `model.Hostname`, a Go `string`. -/
abbrev Hostname := String

/-- The method `Hostname.String`: the string form of a hostname. -/
def Hostname.String (h : Hostname) : String := h

/-- Modelled from the spec: `model.Labels`, whose declaration is not part of the source
file. The spec describes "an unordered set of key/value tags"; it is an association list
read through `List.lookup`, so that every key has at most one value. -/
abbrev Labels := List (String × String)

/-- Modelled from the spec: `model.LabelsCollection`, whose declaration is not part of the
source file. The spec describes it as "an unordered set of key/value tags attached to a
query or an instance". -/
abbrev LabelsCollection := List (String × String)

/-- Modelled from the spec: `LabelsCollection.HasSubsetOf`, which is not part of the source
file. "A query's label set matches an instance when every query key/value pair is present
and equal in the instance's label set (instance may have additional labels)". -/
def LabelsCollection.HasSubsetOf (labels : LabelsCollection) (that : Labels) : Bool :=
  labels.all (fun kv => that.lookup kv.1 == labels.lookup kv.1)

/-- Modelled from the spec: the constant `model.IstioDefaultConfigNamespace`, "a fixed
default value"; no result below depends on the value chosen. -/
def IstioDefaultConfigNamespace : String := "default"

/-- The type `model.Port`, reduced to the field the adapter reads. -/
structure Port where
  Port : Int
  deriving DecidableEq, Repr

/-- The type `model.PortList`. -/
abbrev PortList := List Port

/-- The type `model.Probe`; the adapter never builds one. -/
structure Probe where
  Port : Port
  Path : String
  deriving DecidableEq, Repr

/-- The type `model.ProbeList`. -/
abbrev ProbeList := List Probe

/-- The type `model.ServiceAttributes`, with the two fields the adapter sets. -/
structure ServiceAttributes where
  Name : String
  Namespace : String
  deriving DecidableEq, Repr

/-- The type `model.Service`: "hostname, exposed ports, attributes (name, namespace)". -/
structure Service where
  Hostname : Hostname
  Ports : PortList
  Attributes : ServiceAttributes
  deriving DecidableEq, Repr

/-- The type `model.NetworkEndpoint`, with the fields the adapter reads. -/
structure NetworkEndpoint where
  Address : String
  ServicePort : Port
  deriving DecidableEq, Repr

/-- The type `model.ServiceInstance`: a network endpoint, the owning service and the
labels of the instance. -/
structure ServiceInstance where
  Endpoint : NetworkEndpoint
  Service : Service
  Labels : Labels
  deriving DecidableEq, Repr

/-- The type `model.Proxy`, with the field the adapter reads. -/
structure Proxy where
  IPAddress : String
  deriving DecidableEq, Repr

/-- Modelled from the spec: one raw instance record of the registry, "bearing IP, port, and
metadata tags"; its declaration is not part of the source file. -/
structure InstanceRecord where
  IPAddress : String
  Port : Int
  Metadata : Labels
  deriving DecidableEq, Repr

/-- Modelled from the spec: the registry's `application`, "a named group of instance
records"; its declaration is not part of the source file. -/
structure Application where
  Name : String
  Instances : List InstanceRecord
  deriving DecidableEq, Repr

/-- Modelled from the spec: an application "maps 1:1 to a Hostname after conversion"; the
spec's scenarios take the application named "orders" to the hostname "orders". -/
def Application.hostname (app : Application) : Hostname := app.Name

/-- The interface `Client`: the outcome of the one call of `Applications()` that an
operation makes, a snapshot together with an error that is `none` on success. -/
structure Client where
  Applications : List Application × Option error

/-- The struct `serviceDiscovery`. -/
structure serviceDiscovery where
  client : Client

/-! ## The converters -/

/-- Modelled from the spec: the hostname filter of `convertServices`, "absent filter ⇒
include all", otherwise "restricting output to given hostnames". The Go argument `nil` is
`none` and `map[model.Hostname]bool{hostname: true}` is `some [hostname]`. -/
def hostnameAllowed (hostnames : Option (List Hostname)) (h : Hostname) : Bool :=
  match hostnames with
  | none => true
  | some hs => hs.contains h

/-- Modelled from the spec: the ports a service exposes, those of the instance records of
the applications that map to its hostname. -/
def exposedPorts (apps : List Application) (h : Hostname) : PortList :=
  ((apps.filter (fun app => app.hostname == h)).flatMap
    (fun app => app.Instances.map (fun r => Port.mk r.Port))).dedup

/-- Modelled from the spec: `convertServices`, which is not part of the source file.
"Output: mapping from hostname to canonical Service, one entry per distinct hostname found
(after filtering), attributes populated with name = hostname's string form and a fixed
default namespace." -/
def convertServices (apps : List Application) (hostnames : Option (List Hostname)) :
    List (Hostname × Service) :=
  (((apps.map Application.hostname).filter (hostnameAllowed hostnames)).dedup).map
    (fun h => (h, { Hostname := h
                    Ports := exposedPorts apps h
                    Attributes := { Name := Hostname.String h
                                    Namespace := IstioDefaultConfigNamespace } }))

/-- Modelled from the spec: `convertServiceInstances`, which is not part of the source
file. "Output: one ServiceInstance per raw instance record whose owning hostname exists in
`services`; records whose hostname was filtered out upstream are silently excluded." -/
def convertServiceInstances (services : List (Hostname × Service))
    (apps : List Application) : List ServiceInstance :=
  apps.flatMap (fun app =>
    match services.lookup app.hostname with
    | none => []
    | some service =>
      app.Instances.map (fun r =>
        { Endpoint := { Address := r.IPAddress, ServicePort := { Port := r.Port } }
          Service := service
          Labels := r.Metadata }))

/-! ## The discovery facade (`servicediscovery.go`) -/

/-- The method `Services`. Go leaves the iteration order of a map unspecified; the loop
here visits the catalog in list order. -/
def Services (sd : serviceDiscovery) : List Service × Option error :=
  match sd.client.Applications with
  | (_, some err) => ([], some err)
  | (apps, none) =>
    let services := convertServices apps none
    let out := services.foldl (fun out kv => out ++ [kv.2]) []
    (out, none)

/-- The method `GetService`. -/
def GetService (sd : serviceDiscovery) (hostname : Hostname) :
    Option Service × Option error :=
  match sd.client.Applications with
  | (_, some err) => (none, some err)
  | (apps, none) =>
    let services := convertServices apps (some [hostname])
    let service := services.lookup hostname
    (service, none)

/-- The method `GetServiceAttributes`. -/
def GetServiceAttributes (sd : serviceDiscovery) (hostname : Hostname) :
    Option ServiceAttributes × Option error :=
  match GetService sd hostname with
  | (some _, _) =>
    (some { Name := Hostname.String hostname, Namespace := IstioDefaultConfigNamespace },
      none)
  | (none, err) => (none, err)

/-- The method `Instances`. -/
def Instances (_sd : serviceDiscovery) (_hostname : Hostname) (_ports : List String)
    (_tagsList : LabelsCollection) : List ServiceInstance × Option error :=
  ([], some (error.mk "NOT IMPLEMENTED"))

/-- The method `InstancesByPort`. -/
def InstancesByPort (sd : serviceDiscovery) (hostname : Hostname) (port : Int)
    (tagsList : LabelsCollection) : List ServiceInstance × Option error :=
  match sd.client.Applications with
  | (_, some err) => ([], some err)
  | (apps, none) =>
    let services := convertServices apps (some [hostname])
    let out := (convertServiceInstances services apps).foldl
      (fun out inst =>
        if !tagsList.HasSubsetOf inst.Labels then out
        else if port != 0 && port != inst.Endpoint.ServicePort.Port then out
        else out ++ [inst]) []
    (out, none)

/-- The method `GetProxyServiceInstances`. -/
def GetProxyServiceInstances (sd : serviceDiscovery) (proxy : Proxy) :
    List ServiceInstance × Option error :=
  match sd.client.Applications with
  | (_, some err) => ([], some err)
  | (apps, none) =>
    let services := convertServices apps none
    let out := (convertServiceInstances services apps).foldl
      (fun out inst =>
        if proxy.IPAddress == inst.Endpoint.Address then out ++ [inst] else out) []
    (out, none)

/-- The method `ManagementPorts`. -/
def ManagementPorts (_sd : serviceDiscovery) (_addr : String) : PortList := []

/-- The method `WorkloadHealthCheckInfo`. -/
def WorkloadHealthCheckInfo (_sd : serviceDiscovery) (_addr : String) : ProbeList := []

/-! ## Sample data -/

/-- A snapshot with the application "orders" of the spec's scenarios and a second
application "billing"; both have an instance at address 10.0.0.9. -/
def sampleApps : List Application :=
  [ { Name := "orders"
      Instances := [ { IPAddress := "10.0.0.5", Port := 8080, Metadata := [("env", "prod")] },
                     { IPAddress := "10.0.0.9", Port := 9090, Metadata := [] } ] },
    { Name := "billing"
      Instances := [ { IPAddress := "10.0.0.9", Port := 7070, Metadata := [("env", "prod")] } ] } ]

/-- A client whose fetch succeeds with `sampleApps`. -/
def sampleSd : serviceDiscovery := { client := { Applications := (sampleApps, none) } }

/-- A client whose fetch fails with a connectivity error. -/
def failingSd : serviceDiscovery :=
  { client := { Applications := ([], some (error.mk "connection refused")) } }

/-- The service that the converter builds for "orders" from `sampleApps`. -/
def ordersService : Service :=
  { Hostname := "orders"
    Ports := [⟨8080⟩, ⟨9090⟩]
    Attributes := { Name := "orders", Namespace := IstioDefaultConfigNamespace } }

/-- The service that the converter builds for "billing" from `sampleApps`. -/
def billingService : Service :=
  { Hostname := "billing"
    Ports := [⟨7070⟩]
    Attributes := { Name := "billing", Namespace := IstioDefaultConfigNamespace } }

/-- The instance of "orders" at 10.0.0.5:8080 with labels {env:prod}. -/
def ordersInstance : ServiceInstance :=
  { Endpoint := { Address := "10.0.0.5", ServicePort := ⟨8080⟩ }
    Service := ordersService
    Labels := [("env", "prod")] }

/-- The instance of "orders" at 10.0.0.9:9090, without labels. -/
def ordersInstance9 : ServiceInstance :=
  { Endpoint := { Address := "10.0.0.9", ServicePort := ⟨9090⟩ }
    Service := ordersService
    Labels := [] }

/-- The instance of "billing" at 10.0.0.9:7070 with labels {env:prod}. -/
def billingInstance9 : ServiceInstance :=
  { Endpoint := { Address := "10.0.0.9", ServicePort := ⟨7070⟩ }
    Service := billingService
    Labels := [("env", "prod")] }

/-! ## Auxiliary facts about folds and association lists -/

theorem foldl_append_filter {α : Type} (p : α → Bool) (l : List α) (init : List α) :
    l.foldl (fun out x => if p x then out ++ [x] else out) init = init ++ l.filter p := by
  induction l generalizing init with
  | nil => simp
  | cons x xs ih =>
    simp only [List.foldl_cons, ih]
    by_cases hp : p x = true
    · simp [hp, List.filter_cons]
    · simp [hp, List.filter_cons]

theorem foldl_append_snd {α β : Type} (l : List (α × β)) (init : List β) :
    l.foldl (fun out kv => out ++ [kv.2]) init = init ++ l.map Prod.snd := by
  induction l generalizing init with
  | nil => simp
  | cons x xs ih => simp [List.foldl_cons, ih]

theorem lookup_some_mem {β : Type} (l : List (String × β)) (k : String) (v : β)
    (h : l.lookup k = some v) : (k, v) ∈ l := by
  induction l with
  | nil => simp at h
  | cons p ps ih =>
    obtain ⟨a, b⟩ := p
    by_cases hk : k = a
    · subst hk
      simp [List.lookup] at h
      simp [h]
    · have hne : (k == a) = false := by simpa using hk
      simp only [List.lookup, hne] at h
      exact List.mem_cons_of_mem _ (ih h)

theorem mem_lookup_isSome (l : List (String × String)) (kv : String × String)
    (h : kv ∈ l) : ∃ v, l.lookup kv.1 = some v := by
  induction l with
  | nil => simp at h
  | cons p ps ih =>
    obtain ⟨a, b⟩ := p
    by_cases hk : kv.1 = a
    · exact ⟨b, by simp [List.lookup, hk]⟩
    · have hne : (kv.1 == a) = false := by simpa using hk
      have hmem : kv ∈ ps := by
        rcases List.mem_cons.mp h with h1 | h1
        · exact absurd (by rw [h1]) hk
        · exact h1
      obtain ⟨v, hv⟩ := ih hmem
      exact ⟨v, by simp only [List.lookup, hne]; exact hv⟩

theorem HasSubsetOf_iff (labels : LabelsCollection) (that : Labels) :
    labels.HasSubsetOf that = true ↔
      ∀ k v, labels.lookup k = some v → that.lookup k = some v := by
  unfold LabelsCollection.HasSubsetOf
  rw [List.all_eq_true]
  constructor
  · intro h k v hkv
    have := h (k, v) (lookup_some_mem labels k v hkv)
    simp only [beq_iff_eq] at this
    rw [this, hkv]
  · intro h kv hmem
    obtain ⟨v, hv⟩ := mem_lookup_isSome labels kv hmem
    simp only [beq_iff_eq]
    rw [hv]
    exact h kv.1 v hv

theorem lookup_map_self {β : Type} (f : String → β) (l : List String) (k : String) :
    (l.map (fun h => (h, f h))).lookup k = if k ∈ l then some (f k) else none := by
  induction l with
  | nil => simp
  | cons a as ih =>
    by_cases hk : k = a
    · subst hk
      simp [List.lookup]
    · have hne : (k == a) = false := by simpa using hk
      simp only [List.map_cons, List.lookup, hne, ih, List.mem_cons, hk, false_or]

theorem InstancesByPort_fold (tagsList : LabelsCollection) (port : Int)
    (l : List ServiceInstance) (init : List ServiceInstance) :
    l.foldl (fun out inst =>
        if !tagsList.HasSubsetOf inst.Labels then out
        else if port != 0 && port != inst.Endpoint.ServicePort.Port then out
        else out ++ [inst]) init
      = init ++ l.filter (fun inst =>
          tagsList.HasSubsetOf inst.Labels &&
            (port == 0 || inst.Endpoint.ServicePort.Port == port)) := by
  induction l generalizing init with
  | nil => simp
  | cons x xs ih =>
    simp only [List.foldl_cons, ih]
    by_cases hl : tagsList.HasSubsetOf x.Labels = true
    · by_cases h0 : port = 0
      · simp [hl, h0, List.filter_cons]
      · by_cases hp : port = x.Endpoint.ServicePort.Port
        · simp [hl, h0, hp.symm, List.filter_cons]
        · have hp2 : ¬ x.Endpoint.ServicePort.Port = port := fun h => hp h.symm
          simp [hl, h0, hp, hp2, List.filter_cons]
    · simp [hl, List.filter_cons]

theorem InstancesByPort_ok (sd : serviceDiscovery) (apps : List Application)
    (hostname : Hostname) (port : Int) (tagsList : LabelsCollection)
    (hfetch : sd.client.Applications = (apps, none)) :
    InstancesByPort sd hostname port tagsList =
      ((convertServiceInstances (convertServices apps (some [hostname])) apps).filter
        (fun inst => tagsList.HasSubsetOf inst.Labels &&
          (port == 0 || inst.Endpoint.ServicePort.Port == port)), none) := by
  simp only [InstancesByPort, hfetch, InstancesByPort_fold, List.nil_append]

theorem GetProxyServiceInstances_ok (sd : serviceDiscovery) (apps : List Application)
    (proxy : Proxy) (hfetch : sd.client.Applications = (apps, none)) :
    GetProxyServiceInstances sd proxy =
      ((convertServiceInstances (convertServices apps none) apps).filter
        (fun inst => proxy.IPAddress == inst.Endpoint.Address), none) := by
  simp only [GetProxyServiceInstances, hfetch, foldl_append_filter, List.nil_append]

theorem Services_ok (sd : serviceDiscovery) (apps : List Application)
    (hfetch : sd.client.Applications = (apps, none)) :
    Services sd = ((convertServices apps none).map Prod.snd, none) := by
  simp only [Services, hfetch, foldl_append_snd, List.nil_append]

theorem GetService_ok (sd : serviceDiscovery) (apps : List Application)
    (hostname : Hostname) (hfetch : sd.client.Applications = (apps, none)) :
    GetService sd hostname =
      ((convertServices apps (some [hostname])).lookup hostname, none) := by
  simp only [GetService, hfetch]

theorem fetch_cases (sd : serviceDiscovery) :
    (∃ apps, sd.client.Applications = (apps, none)) ∨
      ∃ apps e, sd.client.Applications = (apps, some e) := by
  rcases h : sd.client.Applications with ⟨apps, _ | e⟩
  · exact Or.inl ⟨apps, rfl⟩
  · exact Or.inr ⟨apps, e, rfl⟩

theorem convertServices_lookup (apps : List Application)
    (hostnames : Option (List Hostname)) (h : Hostname) (s : Service)
    (hs : (convertServices apps hostnames).lookup h = some s) :
    s.Hostname = h ∧ hostnameAllowed hostnames h = true ∧
      ∃ app ∈ apps, app.hostname = h := by
  unfold convertServices at hs
  rw [lookup_map_self] at hs
  split at hs
  · rename_i hmem
    rw [List.mem_dedup, List.mem_filter, List.mem_map] at hmem
    obtain ⟨⟨app, happ, heq⟩, hall⟩ := hmem
    simp only [Option.some.injEq] at hs
    subst hs
    exact ⟨rfl, hall, app, happ, heq⟩
  · simp at hs

theorem convertServiceInstances_mem (services : List (Hostname × Service))
    (apps : List Application) (inst : ServiceInstance)
    (h : inst ∈ convertServiceInstances services apps) :
    ∃ app ∈ apps, services.lookup app.hostname = some inst.Service := by
  unfold convertServiceInstances at h
  rw [List.mem_flatMap] at h
  obtain ⟨app, happ, hin⟩ := h
  refine ⟨app, happ, ?_⟩
  split at hin
  · simp at hin
  · rename_i service hlook
    rw [List.mem_map] at hin
    obtain ⟨r, _, hr⟩ := hin
    rw [hlook, ← hr]

theorem convertServices_hostnames (apps : List Application)
    (hostnames : Option (List Hostname)) :
    ((convertServices apps hostnames).map Prod.snd).map Service.Hostname =
      ((apps.map Application.hostname).filter (hostnameAllowed hostnames)).dedup := by
  unfold convertServices
  rw [List.map_map, List.map_map]
  exact List.map_id _

/-! ## The claims -/

/-- C1. Every instance in the list returned by `InstancesByPort(h, p, tags)` is owned by a
service whose hostname is `h`, carries every key/value pair of `tags` in its labels, and
has endpoint service port `p` unless `p` is 0. (After a failed fetch the list is empty.) -/
theorem InstancesByPort_sound (sd : serviceDiscovery) (hostname : Hostname) (port : Int)
    (tagsList : LabelsCollection) (inst : ServiceInstance)
    (hmem : inst ∈ (InstancesByPort sd hostname port tagsList).1) :
    inst.Service.Hostname = hostname ∧
      (∀ k v, tagsList.lookup k = some v → inst.Labels.lookup k = some v) ∧
      (port = 0 ∨ inst.Endpoint.ServicePort.Port = port) := by
  rcases fetch_cases sd with ⟨apps, hfetch⟩ | ⟨apps, e, hfetch⟩
  · rw [InstancesByPort_ok sd apps hostname port tagsList hfetch] at hmem
    simp only [List.mem_filter, Bool.and_eq_true, Bool.or_eq_true, beq_iff_eq] at hmem
    obtain ⟨hconv, hlabels, hport⟩ := hmem
    obtain ⟨app, _, hlook⟩ := convertServiceInstances_mem _ _ _ hconv
    obtain ⟨hhost, hallowed, _⟩ := convertServices_lookup _ _ _ _ hlook
    refine ⟨?_, (HasSubsetOf_iff tagsList inst.Labels).mp hlabels, ?_⟩
    · have hsame : app.hostname = hostname := by simpa [hostnameAllowed] using hallowed
      rw [hhost, hsame]
    · rcases hport with h0 | hp
      · exact Or.inl h0
      · exact Or.inr hp
  · simp [InstancesByPort, hfetch] at hmem

/-- Witness of C1 on the sample snapshot: the instance of "orders" at port 8080. -/
theorem InstancesByPort_sound_witness :
    ordersInstance ∈ (InstancesByPort sampleSd "orders" 8080 [("env", "prod")]).1 ∧
      (ordersInstance.Service.Hostname = "orders" ∧
        (∀ k v, List.lookup k [("env", "prod")] = some v →
          ordersInstance.Labels.lookup k = some v) ∧
        ((8080 : Int) = 0 ∨ ordersInstance.Endpoint.ServicePort.Port = 8080)) :=
  ⟨by decide, InstancesByPort_sound sampleSd "orders" 8080 [("env", "prod")] ordersInstance
    (by decide)⟩

/-- C2. After a successful fetch of `apps`, `InstancesByPort(h, p, tags)` returns, in the
converter's order, exactly the instances of
`convertServiceInstances(convertServices(apps, {h}), apps)` whose labels contain every
key/value pair of `tags` and for which `p == 0` or the instance port equals `p`. An empty
label query matches every instance, port 0 disables the port filter and a non-zero port
requires an exact match. -/
theorem InstancesByPort_exact (sd : serviceDiscovery) (apps : List Application)
    (hostname : Hostname) (port : Int) (tagsList : LabelsCollection)
    (hfetch : sd.client.Applications = (apps, none)) :
    InstancesByPort sd hostname port tagsList =
        ((convertServiceInstances (convertServices apps (some [hostname])) apps).filter
          (fun inst => tagsList.HasSubsetOf inst.Labels &&
            (port == 0 || inst.Endpoint.ServicePort.Port == port)), none) ∧
      (∀ inst, inst ∈ (InstancesByPort sd hostname port tagsList).1 ↔
        inst ∈ convertServiceInstances (convertServices apps (some [hostname])) apps ∧
          (∀ k v, tagsList.lookup k = some v → inst.Labels.lookup k = some v) ∧
          (port = 0 ∨ inst.Endpoint.ServicePort.Port = port)) ∧
      (∀ labels : Labels, LabelsCollection.HasSubsetOf [] labels = true) ∧
      (port = 0 → InstancesByPort sd hostname port tagsList =
        ((convertServiceInstances (convertServices apps (some [hostname])) apps).filter
          (fun inst => tagsList.HasSubsetOf inst.Labels), none)) ∧
      (port ≠ 0 → InstancesByPort sd hostname port tagsList =
        ((convertServiceInstances (convertServices apps (some [hostname])) apps).filter
          (fun inst => tagsList.HasSubsetOf inst.Labels &&
            (inst.Endpoint.ServicePort.Port == port)), none)) := by
  have hok := InstancesByPort_ok sd apps hostname port tagsList hfetch
  refine ⟨hok, ?_, ?_, ?_, ?_⟩
  · intro inst
    rw [hok]
    simp only [List.mem_filter, Bool.and_eq_true, Bool.or_eq_true, beq_iff_eq,
      HasSubsetOf_iff]
  · intro labels
    rfl
  · intro h0
    rw [hok]
    subst h0
    simp
  · intro hne
    rw [hok]
    have hb : (port == 0) = false := by simpa using hne
    simp [hb]

/-- Witness of C2 on the sample snapshot, for "orders" at port 8080 with an empty query. -/
theorem InstancesByPort_exact_witness :
    sampleSd.client.Applications = (sampleApps, none) ∧
      InstancesByPort sampleSd "orders" 8080 [] = ([ordersInstance], none) ∧
      InstancesByPort sampleSd "orders" 0 [] = ([ordersInstance, ordersInstance9], none) ∧
      (InstancesByPort sampleSd "orders" 8080 [] =
        ((convertServiceInstances (convertServices sampleApps (some ["orders"]))
          sampleApps).filter
          (fun inst => LabelsCollection.HasSubsetOf [] inst.Labels &&
            ((8080 : Int) == 0 || inst.Endpoint.ServicePort.Port == 8080)), none)) :=
  ⟨rfl, by decide, by decide,
    (InstancesByPort_exact sampleSd sampleApps "orders" 8080 [] rfl).1⟩

/-- C3. After a successful fetch of `apps`, `GetProxyServiceInstances(proxy)` returns
exactly the instances of `convertServiceInstances(convertServices(apps, nil), apps)` whose
endpoint address equals the proxy's IP address, whatever their hostname. -/
theorem GetProxyServiceInstances_exact (sd : serviceDiscovery) (apps : List Application)
    (proxy : Proxy) (hfetch : sd.client.Applications = (apps, none)) :
    GetProxyServiceInstances sd proxy =
        ((convertServiceInstances (convertServices apps none) apps).filter
          (fun inst => inst.Endpoint.Address == proxy.IPAddress), none) ∧
      ∀ inst, inst ∈ (GetProxyServiceInstances sd proxy).1 ↔
        inst ∈ convertServiceInstances (convertServices apps none) apps ∧
          inst.Endpoint.Address = proxy.IPAddress := by
  have hok := GetProxyServiceInstances_ok sd apps proxy hfetch
  have hfun : (fun inst : ServiceInstance => proxy.IPAddress == inst.Endpoint.Address) =
      (fun inst => inst.Endpoint.Address == proxy.IPAddress) := by
    funext inst
    exact Bool.beq_comm
  rw [hfun] at hok
  refine ⟨hok, ?_⟩
  intro inst
  rw [hok]
  simp only [List.mem_filter, beq_iff_eq]

/-- Witness of C3 on the sample snapshot: the two services with an instance at 10.0.0.9
both contribute. -/
theorem GetProxyServiceInstances_exact_witness :
    sampleSd.client.Applications = (sampleApps, none) ∧
      GetProxyServiceInstances sampleSd ⟨"10.0.0.9"⟩ =
        ([ordersInstance9, billingInstance9], none) ∧
      (∀ inst, inst ∈ (GetProxyServiceInstances sampleSd ⟨"10.0.0.9"⟩).1 ↔
        inst ∈ convertServiceInstances (convertServices sampleApps none) sampleApps ∧
          inst.Endpoint.Address = "10.0.0.9") :=
  ⟨rfl, by decide, (GetProxyServiceInstances_exact sampleSd sampleApps ⟨"10.0.0.9"⟩ rfl).2⟩

/-- Counterexample to C4 as stated: with a client whose fetch fails with "connection
refused", `Instances` returns its own "NOT IMPLEMENTED" error and not the fetch error. -/
theorem Instances_not_fetch_error :
    failingSd.client.Applications.2 = some (error.mk "connection refused") ∧
      (Instances failingSd "orders" ["8080"] []).2 = some (error.mk "NOT IMPLEMENTED") ∧
      (Instances failingSd "orders" ["8080"] []).2 ≠ failingSd.client.Applications.2 := by
  decide

/-- C4, amended. When the fetch fails with error `e`, the five fetching operations
(`Services`, `GetService`, `GetServiceAttributes`, `InstancesByPort`,
`GetProxyServiceInstances`) return a nil result together with that same error `e`;
`Instances` returns a nil result with its own "NOT IMPLEMENTED" error; `ManagementPorts`
and `WorkloadHealthCheckInfo` return a nil result and have no error result. -/
theorem fetch_error_propagates (sd : serviceDiscovery) (e : error) (hostname : Hostname)
    (port : Int) (ports : List String) (tagsList : LabelsCollection) (proxy : Proxy)
    (addr : String) (hfail : sd.client.Applications.2 = some e) :
    Services sd = ([], some e) ∧
      GetService sd hostname = (none, some e) ∧
      GetServiceAttributes sd hostname = (none, some e) ∧
      InstancesByPort sd hostname port tagsList = ([], some e) ∧
      GetProxyServiceInstances sd proxy = ([], some e) ∧
      Instances sd hostname ports tagsList = ([], some (error.mk "NOT IMPLEMENTED")) ∧
      ManagementPorts sd addr = [] ∧
      WorkloadHealthCheckInfo sd addr = [] := by
  rcases hA : sd.client.Applications with ⟨apps, err⟩
  rw [hA] at hfail
  simp only at hfail
  subst hfail
  have hget : GetService sd hostname = (none, some e) := by simp only [GetService, hA]
  refine ⟨?_, hget, ?_, ?_, ?_, rfl, rfl, rfl⟩
  · simp only [Services, hA]
  · simp only [GetServiceAttributes, hget]
  · simp only [InstancesByPort, hA]
  · simp only [GetProxyServiceInstances, hA]

/-- Witness of the amended C4 at the client that fails with "connection refused". -/
theorem fetch_error_propagates_witness :
    failingSd.client.Applications.2 = some (error.mk "connection refused") ∧
      (Services failingSd = ([], some (error.mk "connection refused")) ∧
        GetService failingSd "orders" = (none, some (error.mk "connection refused")) ∧
        GetServiceAttributes failingSd "orders" =
          (none, some (error.mk "connection refused")) ∧
        InstancesByPort failingSd "orders" 8080 [] =
          ([], some (error.mk "connection refused")) ∧
        GetProxyServiceInstances failingSd ⟨"10.0.0.9"⟩ =
          ([], some (error.mk "connection refused")) ∧
        Instances failingSd "orders" ["8080"] [] =
          ([], some (error.mk "NOT IMPLEMENTED")) ∧
        ManagementPorts failingSd "10.0.0.9" = [] ∧
        WorkloadHealthCheckInfo failingSd "10.0.0.9" = []) :=
  ⟨rfl, fetch_error_propagates failingSd (error.mk "connection refused") "orders" 8080
    ["8080"] [] ⟨"10.0.0.9"⟩ "10.0.0.9" rfl⟩

/-- C5. For every successfully fetched snapshot and every hostname that no application of
the snapshot maps to, `GetService` returns a nil service and no error. -/
theorem GetService_absent (sd : serviceDiscovery) (apps : List Application)
    (hostname : Hostname) (hfetch : sd.client.Applications = (apps, none))
    (habsent : ∀ app ∈ apps, app.hostname ≠ hostname) :
    GetService sd hostname = (none, none) := by
  rw [GetService_ok sd apps hostname hfetch]
  cases hlook : (convertServices apps (some [hostname])).lookup hostname with
  | none => rfl
  | some s =>
    obtain ⟨_, _, app, happ, heq⟩ := convertServices_lookup _ _ _ _ hlook
    exact absurd heq (habsent app happ)

/-- Witness of C5 on the sample snapshot, which has no application "payments". -/
theorem GetService_absent_witness :
    sampleSd.client.Applications = (sampleApps, none) ∧
      (∀ app ∈ sampleApps, app.hostname ≠ "payments") ∧
      GetService sampleSd "payments" = (none, none) :=
  ⟨rfl, by decide,
    GetService_absent sampleSd sampleApps "payments" rfl (by decide)⟩

/-- C6. After a successful fetch of `apps`, `Services()` returns no error and exactly one
service per distinct hostname of the snapshot: no two returned services share a hostname,
every entry of the catalog `convertServices(apps, nil)` is returned, the list is as long
as the catalog, and the returned hostnames are those of the snapshot's applications. -/
theorem Services_one_per_hostname (sd : serviceDiscovery) (apps : List Application)
    (hfetch : sd.client.Applications = (apps, none)) :
    (Services sd).2 = none ∧
      ((Services sd).1.map Service.Hostname).Nodup ∧
      (∀ h s, (convertServices apps none).lookup h = some s →
        s ∈ (Services sd).1 ∧ s.Hostname = h) ∧
      (Services sd).1.length = (convertServices apps none).length ∧
      (∀ h, h ∈ (Services sd).1.map Service.Hostname ↔ ∃ app ∈ apps, app.hostname = h) := by
  rw [Services_ok sd apps hfetch]
  refine ⟨rfl, ?_, ?_, ?_, ?_⟩
  · rw [convertServices_hostnames]
    exact List.nodup_dedup _
  · intro h s hlook
    refine ⟨?_, (convertServices_lookup _ _ _ _ hlook).1⟩
    exact List.mem_map.mpr ⟨(h, s), lookup_some_mem _ _ _ hlook, rfl⟩
  · simp only [List.length_map]
  · intro h
    rw [convertServices_hostnames]
    simp [hostnameAllowed]

/-- Witness of C6 on the sample snapshot: the two services "orders" and "billing". -/
theorem Services_one_per_hostname_witness :
    sampleSd.client.Applications = (sampleApps, none) ∧
      Services sampleSd = ([ordersService, billingService], none) ∧
      ((Services sampleSd).1.map Service.Hostname).Nodup :=
  ⟨rfl, by decide, (Services_one_per_hostname sampleSd sampleApps rfl).2.1⟩

/-- C7. `GetServiceAttributes(h)` returns attributes if and only if `GetService(h)`
returns a service. When the service exists the result is the attributes with `Name` the
string form of `h` and `Namespace` the default namespace, and no error; when the fetch
fails with `e` the result is nil attributes with error `e`; when the fetch succeeds and the
service is absent the result is nil attributes and no error. -/
theorem GetServiceAttributes_spec (sd : serviceDiscovery) (hostname : Hostname) :
    ((GetServiceAttributes sd hostname).1 ≠ none ↔ (GetService sd hostname).1 ≠ none) ∧
      (∀ svc, (GetService sd hostname).1 = some svc →
        GetServiceAttributes sd hostname =
          (some { Name := Hostname.String hostname
                  Namespace := IstioDefaultConfigNamespace }, none)) ∧
      (∀ e, sd.client.Applications.2 = some e →
        GetServiceAttributes sd hostname = (none, some e)) ∧
      (sd.client.Applications.2 = none → (GetService sd hostname).1 = none →
        GetServiceAttributes sd hostname = (none, none)) := by
  refine ⟨?_, ?_, ?_, ?_⟩
  · rcases hG : GetService sd hostname with ⟨_ | svc, err⟩
    · simp [GetServiceAttributes, hG]
    · simp [GetServiceAttributes, hG]
  · intro svc hsvc
    rcases hG : GetService sd hostname with ⟨svc2, err⟩
    rw [hG] at hsvc
    simp only at hsvc
    subst hsvc
    simp only [GetServiceAttributes, hG]
  · intro e he
    rcases hA : sd.client.Applications with ⟨apps, err⟩
    rw [hA] at he
    simp only at he
    subst he
    have hG : GetService sd hostname = (none, some e) := by simp only [GetService, hA]
    simp only [GetServiceAttributes, hG]
  · intro hok hnone
    rcases hA : sd.client.Applications with ⟨apps, err⟩
    rw [hA] at hok
    simp only at hok
    subst hok
    have hG := GetService_ok sd apps hostname hA
    rw [hG] at hnone
    simp only at hnone
    rw [hnone] at hG
    simp only [GetServiceAttributes, hG]

/-- Witness of C7: the three cases on the sample snapshot and on the failing client. -/
theorem GetServiceAttributes_spec_witness :
    (GetService sampleSd "orders").1 = some ordersService ∧
      GetServiceAttributes sampleSd "orders" =
        (some { Name := "orders", Namespace := IstioDefaultConfigNamespace }, none) ∧
      failingSd.client.Applications.2 = some (error.mk "connection refused") ∧
      GetServiceAttributes failingSd "orders" =
        (none, some (error.mk "connection refused")) ∧
      sampleSd.client.Applications.2 = none ∧
      (GetService sampleSd "payments").1 = none ∧
      GetServiceAttributes sampleSd "payments" = (none, none) :=
  ⟨by decide,
    (GetServiceAttributes_spec sampleSd "orders").2.1 ordersService (by decide),
    rfl,
    (GetServiceAttributes_spec failingSd "orders").2.2.1 (error.mk "connection refused") rfl,
    rfl, by decide,
    (GetServiceAttributes_spec sampleSd "payments").2.2.2 rfl (by decide)⟩

/-- C8. `Instances(hostname, ports, tags)` returns a nil result and the "NOT IMPLEMENTED"
error for every hostname, port list, label query and client state; the result does not
depend on the client. -/
theorem Instances_not_implemented (sd : serviceDiscovery) (hostname : Hostname)
    (ports : List String) (tagsList : LabelsCollection) :
    Instances sd hostname ports tagsList = ([], some (error.mk "NOT IMPLEMENTED")) ∧
      ∀ sd2 : serviceDiscovery,
        Instances sd2 hostname ports tagsList = Instances sd hostname ports tagsList :=
  ⟨rfl, fun _ => rfl⟩

/-- C9. `Services`, `GetService`, `InstancesByPort` and `GetProxyServiceInstances` return
an error if and only if the client's fetch fails; when the fetch succeeds and no instance
passes the filter, `InstancesByPort` and `GetProxyServiceInstances` return an empty list
and no error. -/
theorem error_iff_fetch_fails (sd : serviceDiscovery) (hostname : Hostname) (port : Int)
    (tagsList : LabelsCollection) (proxy : Proxy) :
    ((Services sd).2 ≠ none ↔ sd.client.Applications.2 ≠ none) ∧
      ((GetService sd hostname).2 ≠ none ↔ sd.client.Applications.2 ≠ none) ∧
      ((InstancesByPort sd hostname port tagsList).2 ≠ none ↔
        sd.client.Applications.2 ≠ none) ∧
      ((GetProxyServiceInstances sd proxy).2 ≠ none ↔ sd.client.Applications.2 ≠ none) ∧
      (∀ apps, sd.client.Applications = (apps, none) →
        (∀ inst ∈ convertServiceInstances (convertServices apps (some [hostname])) apps,
          ¬ ((∀ k v, tagsList.lookup k = some v → inst.Labels.lookup k = some v) ∧
            (port = 0 ∨ inst.Endpoint.ServicePort.Port = port))) →
        InstancesByPort sd hostname port tagsList = ([], none)) ∧
      (∀ apps, sd.client.Applications = (apps, none) →
        (∀ inst ∈ convertServiceInstances (convertServices apps none) apps,
          inst.Endpoint.Address ≠ proxy.IPAddress) →
        GetProxyServiceInstances sd proxy = ([], none)) := by
  refine ⟨?_, ?_, ?_, ?_, ?_, ?_⟩
  · rcases hA : sd.client.Applications with ⟨apps, _ | e⟩ <;> simp [Services, hA]
  · rcases hA : sd.client.Applications with ⟨apps, _ | e⟩ <;> simp [GetService, hA]
  · rcases hA : sd.client.Applications with ⟨apps, _ | e⟩ <;> simp [InstancesByPort, hA]
  · rcases hA : sd.client.Applications with ⟨apps, _ | e⟩ <;>
      simp [GetProxyServiceInstances, hA]
  · intro apps hfetch hnone
    rw [InstancesByPort_ok sd apps hostname port tagsList hfetch]
    refine Prod.ext ?_ rfl
    simp only [List.filter_eq_nil_iff]
    intro inst hmem hkeep
    simp only [Bool.and_eq_true, Bool.or_eq_true, beq_iff_eq, HasSubsetOf_iff] at hkeep
    exact hnone inst hmem hkeep
  · intro apps hfetch hnone
    rw [GetProxyServiceInstances_ok sd apps proxy hfetch]
    refine Prod.ext ?_ rfl
    simp only [List.filter_eq_nil_iff]
    intro inst hmem hkeep
    simp only [beq_iff_eq] at hkeep
    exact hnone inst hmem hkeep.symm

/-- Witness of C9 on the sample snapshot: no instance of "orders" has port 1234 and no
instance has address 10.0.0.1, and both queries return an empty list and no error. -/
theorem error_iff_fetch_fails_witness :
    sampleSd.client.Applications = (sampleApps, none) ∧
      (∀ inst ∈ convertServiceInstances (convertServices sampleApps (some ["orders"]))
          sampleApps,
        ¬ ((∀ k v, List.lookup k ([] : LabelsCollection) = some v →
              inst.Labels.lookup k = some v) ∧
          ((1234 : Int) = 0 ∨ inst.Endpoint.ServicePort.Port = 1234))) ∧
      InstancesByPort sampleSd "orders" 1234 [] = ([], none) ∧
      (∀ inst ∈ convertServiceInstances (convertServices sampleApps none) sampleApps,
        inst.Endpoint.Address ≠ "10.0.0.1") ∧
      GetProxyServiceInstances sampleSd ⟨"10.0.0.1"⟩ = ([], none) ∧
      ((Services failingSd).2 ≠ none ↔ failingSd.client.Applications.2 ≠ none) := by
  have h1 : ∀ inst ∈ convertServiceInstances (convertServices sampleApps (some ["orders"]))
      sampleApps,
      ¬ ((∀ k v, List.lookup k ([] : LabelsCollection) = some v →
            inst.Labels.lookup k = some v) ∧
        ((1234 : Int) = 0 ∨ inst.Endpoint.ServicePort.Port = 1234)) := by
    intro inst hmem hkeep
    have hconv : convertServiceInstances (convertServices sampleApps (some ["orders"]))
        sampleApps = [ordersInstance, ordersInstance9] := by decide
    rw [hconv] at hmem
    simp only [List.mem_cons, List.mem_singleton, List.not_mem_nil, or_false] at hmem
    rcases hmem with rfl | rfl
    · exact absurd hkeep.2 (by decide)
    · exact absurd hkeep.2 (by decide)
  have h2 : ∀ inst ∈ convertServiceInstances (convertServices sampleApps none) sampleApps,
      inst.Endpoint.Address ≠ "10.0.0.1" := by decide
  have hthm := error_iff_fetch_fails sampleSd "orders" 1234 [] ⟨"10.0.0.1"⟩
  exact ⟨rfl, h1, hthm.2.2.2.2.1 sampleApps rfl h1, h2, hthm.2.2.2.2.2 sampleApps rfl h2,
    (error_iff_fetch_fails failingSd "orders" 1234 [] ⟨"10.0.0.1"⟩).1⟩

/-- C10. `ManagementPorts(x)` and `WorkloadHealthCheckInfo(x)` return an empty result for
every address string `x` and every client. -/
theorem ManagementPorts_WorkloadHealthCheckInfo_empty (sd : serviceDiscovery)
    (addr : String) :
    ManagementPorts sd addr = [] ∧ WorkloadHealthCheckInfo sd addr = [] :=
  ⟨rfl, rfl⟩

end Eureka
